import Mathlib

/-!
Verification of the Intel FCS (FPGA Crypto Services) driver
(`drivers/crypto/intel_fcs.c`): a shallow embedding of the service
request broker (`fcs_request_service`), the four completion callbacks,
the buffer lifecycle helper (`fcs_close_services`) and the fourteen
ioctl command handlers of `fcs_ioctl`, together with theorems settling
the specification claims about buffer lifecycle, locking, two-phase
orchestration, size validation and callback shapes.

External effects (user copies, firmware loading, shared-memory
allocation, channel transport) are modelled by an oracle environment
`Env`; shared buffers are abstract ids and the embedding records the
trace of allocate/free events and mutex lock/unlock events, which is
what the lifecycle claims are about.
-/

/-! ### Constants from the source header of intel_fcs.c -/

def RANDOM_NUMBER_SIZE : Nat := 32
def PS_BUF_SIZE : Nat := 64
def SHA384_SIZE : Nat := 48
def INVALID_STATUS : Nat := 0xffffffff
def INVALID_CID : Nat := 0xffffffff

def DEC_MIN_SZ : Nat := 72
def DEC_MAX_SZ : Nat := 32712
def ENC_MIN_SZ : Nat := 120
def ENC_MAX_SZ : Nat := 32760

def SUBKEY_CMD_MAX_SZ : Nat := 4092
def SUBKEY_RSP_MAX_SZ : Nat := 820
def MEASUREMENT_CMD_MAX_SZ : Nat := 4092
def MEASUREMENT_RSP_MAX_SZ : Nat := 4092
def CERTIFICATE_RSP_MAX_SZ : Nat := 4096

def SIGMA_SESSION_ID_ONE : Nat := 0x1
def SIGMA_UNKNOWN_SESSION : Nat := 0xffffffff

/-- The C `BIT(n)` macro. -/
def BIT (n : Nat) : Nat := 2 ^ n

/-- Modelled from the spec: the co-processor status codes come from the
external header `stratix10-svc-client.h` (not part of src/); the driver
only compares against the `BIT(...)` masks of these codes, so only the
distinctness of the masks matters, not the exact numeric values. -/
def SVC_STATUS_OK : Nat := 0
def SVC_STATUS_BUFFER_SUBMITTED : Nat := 1
def SVC_STATUS_BUFFER_DONE : Nat := 2
def SVC_STATUS_COMPLETED : Nat := 3
def SVC_STATUS_BUSY : Nat := 4
def SVC_STATUS_ERROR : Nat := 5
def SVC_STATUS_INVALID_PARAM : Nat := 7

/-! Linux errno values used by the driver. -/

def ENOMEM : Nat := 12
def EFAULT : Nat := 14
def EINVAL : Nat := 22
def ETIMEDOUT : Nat := 110

/-- Bit pattern of a negative errno `-e` stored into a C `unsigned int`
(the type of `priv->status`). -/
def negu32 (e : Nat) : Nat := 2 ^ 32 - e

/-- Modelled from the spec: `sizeof(struct intel_fcs_cert_test_word)`,
a single 32-bit test word from the external uapi header. -/
def CERT_TEST_WORD_SZ : Nat := 4

/-- Modelled from the spec: `sizeof(struct intel_fcs_attestation_resv_word)`,
a single 32-bit reserved word from the external uapi header. -/
def ATT_RESV_WORD_SZ : Nat := 4

/-- Modelled from the spec: the ioctl command numbers come from the
external uapi header `intel_fcs-ioctl.h`; their exact `_IOWR` values are
immaterial, only their distinctness. Listed in source `switch` order. -/
def INTEL_FCS_DEV_VALIDATION_REQUEST : Nat := 1
def INTEL_FCS_DEV_SEND_CERTIFICATE : Nat := 2
def INTEL_FCS_DEV_COUNTER_SET_PREAUTHORIZED : Nat := 3
def INTEL_FCS_DEV_RANDOM_NUMBER_GEN : Nat := 4
def INTEL_FCS_DEV_GET_PROVISION_DATA : Nat := 5
def INTEL_FCS_DEV_DATA_ENCRYPTION : Nat := 6
def INTEL_FCS_DEV_DATA_DECRYPTION : Nat := 7
def INTEL_FCS_DEV_PSGSIGMA_TEARDOWN : Nat := 8
def INTEL_FCS_DEV_CHIP_ID : Nat := 9
def INTEL_FCS_DEV_ATTESTATION_SUBKEY : Nat := 10
def INTEL_FCS_DEV_ATTESTATION_MEASUREMENT : Nat := 11
def INTEL_FCS_DEV_ATTESTATION_GET_CERTIFICATE : Nat := 12
def INTEL_FCS_DEV_ATTESTATION_CERTIFICATE_RELOAD : Nat := 13
def INTEL_FCS_DEV_GET_ROM_PATCH_SHA384 : Nat := 14

/-! ### Data model -/

/-- A channel notification (`struct stratix10_svc_cb_data`): a status
word and three kernel addresses. `kaddr1` points at a 32-bit mailbox
error word, `kaddr2` at a word array (result payload), `kaddr3` at a
32-bit size word; `none` models a NULL pointer. -/
structure CbData where
  status : Nat
  kaddr1 : Option Nat
  kaddr2 : Option (List Nat)
  kaddr3 : Option Nat
deriving DecidableEq, Repr

/-- The callback-visible fields of `struct intel_fcs_priv`. -/
structure PrivState where
  status : Nat
  kbuf : Option (List Nat)
  size : Nat
  cid_low : Nat
  cid_high : Nat
deriving DecidableEq, Repr

/-- Dereference of a possibly-NULL pointer to a 32-bit word. A NULL
dereference is undefined behaviour in the C source; it is modelled as 0
and the theorems that touch such reads carry non-NULL hypotheses. -/
def derefOr0 (a : Option Nat) : Nat :=
  match a with
  | some v => v
  | none => 0

/-- First 32-bit word behind a word-array pointer (`*(u32 *)p`). -/
def word0 (a : Option (List Nat)) : Nat :=
  match a with
  | some l => l.headD 0
  | none => 0

/-! ### Callback dispatcher (lines 66-150 of intel_fcs.c) -/

/-- `fcs_data_callback` (data shape). -/
def fcs_data_callback (p : PrivState) (d : CbData) : PrivState :=
  if d.status = BIT SVC_STATUS_OK ∨ d.status = BIT SVC_STATUS_COMPLETED then
    { p with status := 0, kbuf := d.kaddr2, size := derefOr0 d.kaddr3 }
  else if d.status = BIT SVC_STATUS_ERROR then
    { p with status := derefOr0 d.kaddr1, kbuf := d.kaddr2,
             size := match d.kaddr3 with | some v => v | none => 0 }
  else
    { p with status := negu32 EINVAL, kbuf := none, size := 0 }

/-- `fcs_vab_callback` (status-only shape). -/
def fcs_vab_callback (p : PrivState) (d : CbData) : PrivState :=
  if d.status = BIT SVC_STATUS_ERROR then
    { p with status := derefOr0 d.kaddr1 }
  else if d.status = BIT SVC_STATUS_BUSY then
    { p with status := negu32 ETIMEDOUT }
  else if d.status = BIT SVC_STATUS_INVALID_PARAM then
    { p with status := negu32 EINVAL }
  else if d.status = BIT SVC_STATUS_OK then
    { p with status := 0 }
  else
    { p with status := negu32 EINVAL }

/-- `fcs_chipid_callback` (identifier shape). -/
def fcs_chipid_callback (p : PrivState) (d : CbData) : PrivState :=
  let p := { p with status := d.status }
  if d.status = BIT SVC_STATUS_OK then
    { p with status := 0, cid_low := word0 d.kaddr2, cid_high := derefOr0 d.kaddr3 }
  else if d.status = BIT SVC_STATUS_ERROR then
    { p with status := derefOr0 d.kaddr1 }
  else
    p

/-- `fcs_attestation_callback` (attestation shape). -/
def fcs_attestation_callback (p : PrivState) (d : CbData) : PrivState :=
  let p := { p with status := d.status }
  if d.status = BIT SVC_STATUS_OK then
    { p with status := 0, kbuf := d.kaddr2, size := derefOr0 d.kaddr3 }
  else if d.status = BIT SVC_STATUS_ERROR then
    { p with status := derefOr0 d.kaddr1 }
  else
    p

/-! ### Service broker (lines 152-189 of intel_fcs.c) -/

/-- Mutex events on `priv->lock` during one `fcs_request_service` call. -/
inductive LockEv where
  | lock
  | unlock
deriving DecidableEq, Repr

/-- Outcome of one channel interaction, as seen by the broker:
`stratix10_svc_send` rejected the message, the completion timed out, or
the registered callback ran with notification data `d`. -/
inductive SvcOutcome where
  | rejected
  | timeout
  | completed (d : CbData)
deriving DecidableEq, Repr

/-- `fcs_request_service`: takes the lock, re-arms the completion, sends
the message and waits. Returns the C return value, the private state
after the registered callback (if it ran), and the trace of mutex
events. When `stratix10_svc_send` fails the function returns `-EINVAL`
at once, and that early return skips `mutex_unlock`. -/
def fcs_request_service (cb : PrivState → CbData → PrivState)
    (p : PrivState) (o : SvcOutcome) : Int × PrivState × List LockEv :=
  match o with
  | SvcOutcome.rejected => (-22, p, [LockEv.lock])
  | SvcOutcome.timeout => (-110, p, [LockEv.lock, LockEv.unlock])
  | SvcOutcome.completed d => (0, cb p d, [LockEv.lock, LockEv.unlock])

/-- Shared-buffer lifecycle events (`stratix10_svc_allocate_memory` /
`stratix10_svc_free_memory`); buffers are abstract ids, allocation
events record the requested byte size. -/
inductive MemEvent where
  | alloc (id : Nat) (sz : Nat)
  | free (id : Nat)
deriving DecidableEq, Repr

/-- `fcs_close_services`: frees the (possibly NULL) source and
destination buffer handles, in that order. -/
def fcs_close_services (sbuf dbuf : Option Nat) : List MemEvent :=
  (match sbuf with | some i => [MemEvent.free i] | none => []) ++
  (match dbuf with | some i => [MemEvent.free i] | none => [])

/-! ### The ioctl entry point (lines 191-1064 of intel_fcs.c) -/

/-- Caller-supplied fields of `struct intel_fcs_dev_ioctl` read by the
handlers (one flattened record for all union members). `status` is the
incoming value of `data->status` after `copy_from_user`. -/
structure IoctlIn where
  status : Nat
  src_size : Nat
  dst_size : Nat
  size : Nat
  c_size : Nat
  cmd_data_sz : Nat
  rsp_data_sz : Nat
  sid : Nat
  c_request : Nat
deriving DecidableEq, Repr

/-- Oracle for the external effects of one ioctl invocation:
`dataAllocOk`/`msgAllocOk` are the two `devm_kzalloc` calls, `cfuOk` the
initial `copy_from_user` of the ioctl struct, `fwOk`/`fwSize` the
`request_firmware` call, `allocOk` the successive
`stratix10_svc_allocate_memory` calls (by index, default success),
`copyInOk` the `copy_from_user` into a shared buffer, `svc` the
successive channel interactions (by index, default timeout), `copyOutOk`
the payload `copy_to_user`, and `ctuOk` the final `copy_to_user` of the
ioctl struct. -/
structure Env where
  dataAllocOk : Bool
  msgAllocOk : Bool
  cfuOk : Bool
  fwOk : Bool
  fwSize : Nat
  allocOk : List Bool
  copyInOk : Bool
  svc : List SvcOutcome
  copyOutOk : Bool
  ctuOk : Bool
deriving DecidableEq, Repr

/-- Observable result of one ioctl invocation: the `long` return value,
the final `data->status` bit pattern handed back to the caller, the
shared-buffer event trace, the number of channel service calls, the
final private state, whether a response payload was copied out to the
caller, and the certificate status word when one was written. -/
structure R where
  ret : Int
  p : PrivState
  dataStatus : Nat := 0
  mem : List MemEvent := []
  svcCount : Nat := 0
  copied : Bool := false
  cStatus : Option Nat := none
deriving DecidableEq, Repr

/-- INTEL_FCS_DEV_VALIDATION_REQUEST handler (lines 221-280). -/
def fcs_ioctl_validation (p0 : PrivState) (inp : IoctlIn) (e : Env) : R :=
  if e.cfuOk = false then { ret := -14, p := p0 }
  else if e.fwOk = false then { ret := -14, p := p0 }
  else if (e.allocOk.getD 0 true) = false then { ret := -12, p := p0 }
  else
    let s1 := fcs_request_service fcs_vab_callback p0 (e.svc.getD 0 SvcOutcome.timeout)
    if s1.1 = 0 ∧ s1.2.1.status = 0 then
      let s2 := fcs_request_service fcs_data_callback s1.2.1 (e.svc.getD 1 SvcOutcome.timeout)
      let ds := if s2.1 = 0 ∧ s2.2.1.status = 0 then 0 else s2.2.1.status
      if e.ctuOk = false then
        { ret := -14, dataStatus := ds, svcCount := 2, p := s2.2.1,
          mem := [MemEvent.alloc 0 e.fwSize] ++ fcs_close_services (some 0) none
                 ++ fcs_close_services (some 0) none }
      else
        { ret := s2.1, dataStatus := ds, svcCount := 2, p := s2.2.1,
          mem := [MemEvent.alloc 0 e.fwSize] ++ fcs_close_services (some 0) none }
    else
      if e.ctuOk = false then
        { ret := -14, dataStatus := s1.2.1.status, svcCount := 1, p := s1.2.1,
          mem := [MemEvent.alloc 0 e.fwSize] ++ fcs_close_services (some 0) none
                 ++ fcs_close_services (some 0) none }
      else
        { ret := s1.1, dataStatus := s1.2.1.status, svcCount := 1, p := s1.2.1,
          mem := [MemEvent.alloc 0 e.fwSize] ++ fcs_close_services (some 0) none }

/-- INTEL_FCS_DEV_SEND_CERTIFICATE handler (lines 282-360). The poll
failure branch writes `c_request.c_status` from the poll buffer (or the
`INVALID_STATUS` sentinel) and leaves `data->status` untouched; the
trailing `copy_to_user` failure path frees `s_buf` a second time. -/
def fcs_ioctl_send_certificate (p0 : PrivState) (inp : IoctlIn) (e : Env) : R :=
  if e.cfuOk = false then { ret := -14, p := p0 }
  else if (e.allocOk.getD 0 true) = false then { ret := -12, p := p0 }
  else if (e.allocOk.getD 1 true) = false then
    { ret := -12, p := p0,
      mem := [MemEvent.alloc 0 (inp.c_size + CERT_TEST_WORD_SZ), MemEvent.free 0] }
  else if e.copyInOk = false then
    { ret := -14, p := p0,
      mem := [MemEvent.alloc 0 (inp.c_size + CERT_TEST_WORD_SZ),
              MemEvent.alloc 1 PS_BUF_SIZE] ++ fcs_close_services (some 0) (some 1) }
  else
    let s1 := fcs_request_service fcs_vab_callback p0 (e.svc.getD 0 SvcOutcome.timeout)
    let allocs := [MemEvent.alloc 0 (inp.c_size + CERT_TEST_WORD_SZ),
                   MemEvent.alloc 1 PS_BUF_SIZE]
    if s1.1 = 0 ∧ s1.2.1.status = 0 then
      let s2 := fcs_request_service fcs_data_callback s1.2.1 (e.svc.getD 1 SvcOutcome.timeout)
      let ds := if s2.1 = 0 ∧ s2.2.1.status = 0 then 0 else inp.status
      let cs := if s2.1 = 0 ∧ s2.2.1.status = 0 then none
                else some (match s2.2.1.kbuf with
                           | some l => l.headD 0
                           | none => INVALID_STATUS)
      if e.ctuOk = false then
        { ret := -14, dataStatus := ds, cStatus := cs, svcCount := 2, p := s2.2.1,
          mem := allocs ++ fcs_close_services (some 0) none
                 ++ fcs_close_services (some 0) (some 1) }
      else
        { ret := s2.1, dataStatus := ds, cStatus := cs, svcCount := 2, p := s2.2.1,
          mem := allocs ++ fcs_close_services (some 0) (some 1) }
    else
      if e.ctuOk = false then
        { ret := -14, dataStatus := s1.2.1.status, svcCount := 1, p := s1.2.1,
          mem := allocs ++ fcs_close_services (some 0) none
                 ++ fcs_close_services (some 0) (some 1) }
      else
        { ret := s1.1, dataStatus := s1.2.1.status, svcCount := 1, p := s1.2.1,
          mem := allocs ++ fcs_close_services (some 0) (some 1) }

/-- INTEL_FCS_DEV_COUNTER_SET_PREAUTHORIZED handler (lines 362-387). -/
def fcs_ioctl_counter_set (p0 : PrivState) (inp : IoctlIn) (e : Env) : R :=
  if e.cfuOk = false then { ret := -14, p := p0 }
  else
    let s1 := fcs_request_service fcs_vab_callback p0 (e.svc.getD 0 SvcOutcome.timeout)
    if s1.1 ≠ 0 then { ret := -14, svcCount := 1, p := s1.2.1 }
    else if e.ctuOk = false then
      { ret := -14, dataStatus := s1.2.1.status, svcCount := 1, p := s1.2.1 }
    else
      { ret := 0, dataStatus := s1.2.1.status, svcCount := 1, p := s1.2.1 }

/-- INTEL_FCS_DEV_RANDOM_NUMBER_GEN handler (lines 389-438). The
trailing `copy_to_user` failure path frees `s_buf` a second time. -/
def fcs_ioctl_random_number (p0 : PrivState) (inp : IoctlIn) (e : Env) : R :=
  if e.cfuOk = false then { ret := -14, p := p0 }
  else if (e.allocOk.getD 0 true) = false then { ret := -12, p := p0 }
  else
    let s1 := fcs_request_service fcs_data_callback p0 (e.svc.getD 0 SvcOutcome.timeout)
    let a0 := [MemEvent.alloc 0 RANDOM_NUMBER_SIZE]
    if s1.1 = 0 ∧ s1.2.1.status = 0 then
      if s1.2.1.kbuf = none then
        { ret := -14, dataStatus := inp.status, svcCount := 1, p := s1.2.1,
          mem := a0 ++ fcs_close_services (some 0) none }
      else if e.ctuOk = false then
        { ret := -14, dataStatus := s1.2.1.status, svcCount := 1, p := s1.2.1,
          mem := a0 ++ fcs_close_services (some 0) none
                 ++ fcs_close_services (some 0) none }
      else
        { ret := s1.1, dataStatus := s1.2.1.status, svcCount := 1, p := s1.2.1,
          mem := a0 ++ fcs_close_services (some 0) none }
    else
      if e.ctuOk = false then
        { ret := -14, dataStatus := s1.2.1.status, svcCount := 1, p := s1.2.1,
          mem := a0 ++ fcs_close_services (some 0) none
                 ++ fcs_close_services (some 0) none }
      else
        { ret := s1.1, dataStatus := s1.2.1.status, svcCount := 1, p := s1.2.1,
          mem := a0 ++ fcs_close_services (some 0) none }

/-- INTEL_FCS_DEV_GET_PROVISION_DATA handler (lines 440-489). All its
failure exits return immediately after a single `fcs_close_services`. -/
def fcs_ioctl_get_provision (p0 : PrivState) (inp : IoctlIn) (e : Env) : R :=
  if e.cfuOk = false then { ret := -14, p := p0 }
  else if (e.allocOk.getD 0 true) = false then { ret := -12, p := p0 }
  else
    let s1 := fcs_request_service fcs_data_callback p0 (e.svc.getD 0 SvcOutcome.timeout)
    let a0 := [MemEvent.alloc 0 inp.size]
    let closed := a0 ++ fcs_close_services (some 0) none
    if s1.1 = 0 ∧ s1.2.1.status = 0 then
      if s1.2.1.kbuf = none then
        { ret := -14, dataStatus := inp.status, svcCount := 1, p := s1.2.1, mem := closed }
      else if e.copyOutOk = false then
        { ret := -14, dataStatus := inp.status, svcCount := 1, p := s1.2.1, mem := closed }
      else if e.ctuOk = false then
        { ret := -14, dataStatus := 0, copied := true, svcCount := 1, p := s1.2.1,
          mem := closed }
      else
        { ret := 0, dataStatus := 0, copied := true, svcCount := 1, p := s1.2.1,
          mem := closed }
    else
      if e.ctuOk = false then
        { ret := -14, dataStatus := s1.2.1.status, svcCount := 1, p := s1.2.1, mem := closed }
      else
        { ret := s1.1, dataStatus := s1.2.1.status, svcCount := 1, p := s1.2.1, mem := closed }

/-- INTEL_FCS_DEV_DATA_ENCRYPTION handler (lines 491-600). Source sizes
are checked against the `DEC_*` range and destination sizes against the
`ENC_*` range before any allocation; the trailing `copy_to_user` failure
path frees all three buffers a second time. -/
def fcs_ioctl_encryption (p0 : PrivState) (inp : IoctlIn) (e : Env) : R :=
  if e.cfuOk = false then { ret := -14, p := p0 }
  else if inp.src_size < DEC_MIN_SZ ∨ DEC_MAX_SZ < inp.src_size then { ret := -14, p := p0 }
  else if inp.dst_size < ENC_MIN_SZ ∨ ENC_MAX_SZ < inp.dst_size then { ret := -14, p := p0 }
  else if (e.allocOk.getD 0 true) = false then { ret := -12, p := p0 }
  else if (e.allocOk.getD 1 true) = false then
    { ret := -12, p := p0, mem := [MemEvent.alloc 0 DEC_MAX_SZ, MemEvent.free 0] }
  else if (e.allocOk.getD 2 true) = false then
    { ret := -12, p := p0,
      mem := [MemEvent.alloc 0 DEC_MAX_SZ, MemEvent.alloc 1 ENC_MAX_SZ]
             ++ fcs_close_services (some 0) (some 1) }
  else if e.copyInOk = false then
    { ret := -12, p := p0,
      mem := [MemEvent.alloc 0 DEC_MAX_SZ, MemEvent.alloc 1 ENC_MAX_SZ,
              MemEvent.alloc 2 PS_BUF_SIZE]
             ++ fcs_close_services (some 2) none ++ fcs_close_services (some 0) (some 1) }
  else
    let allocs := [MemEvent.alloc 0 DEC_MAX_SZ, MemEvent.alloc 1 ENC_MAX_SZ,
                   MemEvent.alloc 2 PS_BUF_SIZE]
    let closes := fcs_close_services (some 2) none ++ fcs_close_services (some 0) (some 1)
    let s1 := fcs_request_service fcs_vab_callback p0 (e.svc.getD 0 SvcOutcome.timeout)
    if s1.1 = 0 ∧ s1.2.1.status = 0 then
      let s2 := fcs_request_service fcs_data_callback s1.2.1 (e.svc.getD 1 SvcOutcome.timeout)
      if s2.1 = 0 ∧ s2.2.1.status = 0 then
        if s2.2.1.kbuf = none then
          { ret := -14, dataStatus := inp.status, svcCount := 2, p := s2.2.1,
            mem := allocs ++ closes }
        else if e.copyOutOk = false then
          { ret := -14, dataStatus := 0, svcCount := 2, p := s2.2.1,
            mem := allocs ++ closes }
        else if e.ctuOk = false then
          { ret := -14, dataStatus := 0, copied := true, svcCount := 2, p := s2.2.1,
            mem := allocs ++ closes ++ closes }
        else
          { ret := 0, dataStatus := 0, copied := true, svcCount := 2, p := s2.2.1,
            mem := allocs ++ closes }
      else
        if e.ctuOk = false then
          { ret := -14, dataStatus := s2.2.1.status, svcCount := 2, p := s2.2.1,
            mem := allocs ++ closes ++ closes }
        else
          { ret := s2.1, dataStatus := s2.2.1.status, svcCount := 2, p := s2.2.1,
            mem := allocs ++ closes }
    else
      if e.ctuOk = false then
        { ret := -14, dataStatus := s1.2.1.status, svcCount := 1, p := s1.2.1,
          mem := allocs ++ closes ++ closes }
      else
        { ret := s1.1, dataStatus := s1.2.1.status, svcCount := 1, p := s1.2.1,
          mem := allocs ++ closes }

/-- INTEL_FCS_DEV_DATA_DECRYPTION handler (lines 602-712). Source sizes
are checked against the `ENC_*` range and destination sizes against the
`DEC_*` range before any allocation; the trailing `copy_to_user` failure
path frees all three buffers a second time. -/
def fcs_ioctl_decryption (p0 : PrivState) (inp : IoctlIn) (e : Env) : R :=
  if e.cfuOk = false then { ret := -14, p := p0 }
  else if inp.src_size < ENC_MIN_SZ ∨ ENC_MAX_SZ < inp.src_size then { ret := -14, p := p0 }
  else if inp.dst_size < DEC_MIN_SZ ∨ DEC_MAX_SZ < inp.dst_size then { ret := -14, p := p0 }
  else if (e.allocOk.getD 0 true) = false then { ret := -12, p := p0 }
  else if (e.allocOk.getD 1 true) = false then
    { ret := -12, p := p0, mem := [MemEvent.alloc 0 ENC_MAX_SZ, MemEvent.free 0] }
  else if (e.allocOk.getD 2 true) = false then
    { ret := -12, p := p0,
      mem := [MemEvent.alloc 0 ENC_MAX_SZ, MemEvent.alloc 1 DEC_MAX_SZ]
             ++ fcs_close_services (some 0) (some 1) }
  else if e.copyInOk = false then
    { ret := -14, p := p0,
      mem := [MemEvent.alloc 0 ENC_MAX_SZ, MemEvent.alloc 1 DEC_MAX_SZ,
              MemEvent.alloc 2 PS_BUF_SIZE]
             ++ fcs_close_services (some 2) none ++ fcs_close_services (some 0) (some 1) }
  else
    let allocs := [MemEvent.alloc 0 ENC_MAX_SZ, MemEvent.alloc 1 DEC_MAX_SZ,
                   MemEvent.alloc 2 PS_BUF_SIZE]
    let closes := fcs_close_services (some 2) none ++ fcs_close_services (some 0) (some 1)
    let s1 := fcs_request_service fcs_vab_callback p0 (e.svc.getD 0 SvcOutcome.timeout)
    if s1.1 = 0 ∧ s1.2.1.status = 0 then
      let s2 := fcs_request_service fcs_data_callback s1.2.1 (e.svc.getD 1 SvcOutcome.timeout)
      if s2.1 = 0 ∧ s2.2.1.status = 0 then
        if s2.2.1.kbuf = none then
          { ret := -14, dataStatus := inp.status, svcCount := 2, p := s2.2.1,
            mem := allocs ++ closes }
        else if e.copyOutOk = false then
          { ret := -14, dataStatus := 0, svcCount := 2, p := s2.2.1,
            mem := allocs ++ closes }
        else if e.ctuOk = false then
          { ret := -14, dataStatus := 0, copied := true, svcCount := 2, p := s2.2.1,
            mem := allocs ++ closes ++ closes }
        else
          { ret := 0, dataStatus := 0, copied := true, svcCount := 2, p := s2.2.1,
            mem := allocs ++ closes }
      else
        if e.ctuOk = false then
          { ret := -14, dataStatus := s2.2.1.status, svcCount := 2, p := s2.2.1,
            mem := allocs ++ closes ++ closes }
        else
          { ret := s2.1, dataStatus := s2.2.1.status, svcCount := 2, p := s2.2.1,
            mem := allocs ++ closes }
    else
      if e.ctuOk = false then
        { ret := -14, dataStatus := s1.2.1.status, svcCount := 1, p := s1.2.1,
          mem := allocs ++ closes ++ closes }
      else
        { ret := s1.1, dataStatus := s1.2.1.status, svcCount := 1, p := s1.2.1,
          mem := allocs ++ closes }

/-- INTEL_FCS_DEV_PSGSIGMA_TEARDOWN handler (lines 714-743). -/
def fcs_ioctl_teardown (p0 : PrivState) (inp : IoctlIn) (e : Env) : R :=
  if e.cfuOk = false then { ret := -14, p := p0 }
  else if inp.sid ≠ SIGMA_SESSION_ID_ONE ∧ inp.sid ≠ SIGMA_UNKNOWN_SESSION then
    { ret := -14, p := p0 }
  else
    let s1 := fcs_request_service fcs_vab_callback p0 (e.svc.getD 0 SvcOutcome.timeout)
    if s1.1 ≠ 0 then { ret := -14, svcCount := 1, p := s1.2.1 }
    else if e.ctuOk = false then
      { ret := -14, dataStatus := s1.2.1.status, svcCount := 1, p := s1.2.1 }
    else
      { ret := 0, dataStatus := s1.2.1.status, svcCount := 1, p := s1.2.1 }

/-- INTEL_FCS_DEV_CHIP_ID handler (lines 745-763); this command performs
no `copy_from_user` of the request struct. -/
def fcs_ioctl_chip_id (p0 : PrivState) (inp : IoctlIn) (e : Env) : R :=
  let s1 := fcs_request_service fcs_chipid_callback p0 (e.svc.getD 0 SvcOutcome.timeout)
  if s1.1 ≠ 0 then { ret := -14, svcCount := 1, p := s1.2.1 }
  else if e.ctuOk = false then
    { ret := -14, dataStatus := s1.2.1.status, svcCount := 1, p := s1.2.1 }
  else
    { ret := 0, dataStatus := s1.2.1.status, svcCount := 1, p := s1.2.1 }

/-- INTEL_FCS_DEV_ATTESTATION_SUBKEY handler (lines 765-841). When the
response-buffer allocation fails the command buffer is not freed, and
the `copy_to_user` failure path returns before `fcs_close_services`. -/
def fcs_ioctl_subkey (p0 : PrivState) (inp : IoctlIn) (e : Env) : R :=
  if e.cfuOk = false then { ret := -14, p := p0 }
  else if SUBKEY_CMD_MAX_SZ < inp.cmd_data_sz then { ret := -14, p := p0 }
  else if SUBKEY_RSP_MAX_SZ < inp.rsp_data_sz then { ret := -14, p := p0 }
  else if (e.allocOk.getD 0 true) = false then { ret := -12, p := p0 }
  else if (e.allocOk.getD 1 true) = false then
    { ret := -12, p := p0,
      mem := [MemEvent.alloc 0 (SUBKEY_CMD_MAX_SZ + ATT_RESV_WORD_SZ)] }
  else
    let allocs := [MemEvent.alloc 0 (SUBKEY_CMD_MAX_SZ + ATT_RESV_WORD_SZ),
                   MemEvent.alloc 1 SUBKEY_RSP_MAX_SZ]
    let s1 := fcs_request_service fcs_attestation_callback p0 (e.svc.getD 0 SvcOutcome.timeout)
    if s1.1 = 0 ∧ s1.2.1.status = 0 then
      if SUBKEY_RSP_MAX_SZ < s1.2.1.size then
        { ret := -14, dataStatus := inp.status, svcCount := 1, p := s1.2.1,
          mem := allocs ++ fcs_close_services (some 0) (some 1) }
      else if e.ctuOk = false then
        { ret := -14, dataStatus := s1.2.1.status, copied := true, svcCount := 1,
          p := s1.2.1, mem := allocs }
      else
        { ret := s1.1, dataStatus := s1.2.1.status, copied := true, svcCount := 1,
          p := s1.2.1, mem := allocs ++ fcs_close_services (some 0) (some 1) }
    else
      if e.ctuOk = false then
        { ret := -14, dataStatus := s1.2.1.status, svcCount := 1, p := s1.2.1,
          mem := allocs }
      else
        { ret := s1.1, dataStatus := s1.2.1.status, svcCount := 1, p := s1.2.1,
          mem := allocs ++ fcs_close_services (some 0) (some 1) }

/-- INTEL_FCS_DEV_ATTESTATION_MEASUREMENT handler (lines 843-918). When
the response-buffer allocation fails the command buffer is not freed;
the `copy_to_user` failure path still reaches `fcs_close_services`. -/
def fcs_ioctl_measurement (p0 : PrivState) (inp : IoctlIn) (e : Env) : R :=
  if e.cfuOk = false then { ret := -14, p := p0 }
  else if MEASUREMENT_CMD_MAX_SZ < inp.cmd_data_sz then { ret := -14, p := p0 }
  else if MEASUREMENT_RSP_MAX_SZ < inp.rsp_data_sz then { ret := -14, p := p0 }
  else if (e.allocOk.getD 0 true) = false then { ret := -12, p := p0 }
  else if (e.allocOk.getD 1 true) = false then
    { ret := -12, p := p0,
      mem := [MemEvent.alloc 0 (MEASUREMENT_CMD_MAX_SZ + ATT_RESV_WORD_SZ)] }
  else
    let allocs := [MemEvent.alloc 0 (MEASUREMENT_CMD_MAX_SZ + ATT_RESV_WORD_SZ),
                   MemEvent.alloc 1 MEASUREMENT_RSP_MAX_SZ]
    let closes := fcs_close_services (some 0) (some 1)
    let s1 := fcs_request_service fcs_attestation_callback p0 (e.svc.getD 0 SvcOutcome.timeout)
    if s1.1 = 0 ∧ s1.2.1.status = 0 then
      if MEASUREMENT_RSP_MAX_SZ < s1.2.1.size then
        { ret := -14, dataStatus := inp.status, svcCount := 1, p := s1.2.1,
          mem := allocs ++ closes }
      else if e.ctuOk = false then
        { ret := -14, dataStatus := s1.2.1.status, copied := true, svcCount := 1,
          p := s1.2.1, mem := allocs ++ closes }
      else
        { ret := s1.1, dataStatus := s1.2.1.status, copied := true, svcCount := 1,
          p := s1.2.1, mem := allocs ++ closes }
    else
      if e.ctuOk = false then
        { ret := -14, dataStatus := s1.2.1.status, svcCount := 1, p := s1.2.1,
          mem := allocs ++ closes }
      else
        { ret := s1.1, dataStatus := s1.2.1.status, svcCount := 1, p := s1.2.1,
          mem := allocs ++ closes }

/-- INTEL_FCS_DEV_ATTESTATION_GET_CERTIFICATE handler (lines 920-974).
The trailing `copy_to_user` failure path frees the response buffer a
second time. -/
def fcs_ioctl_get_certificate (p0 : PrivState) (inp : IoctlIn) (e : Env) : R :=
  if e.cfuOk = false then { ret := -14, p := p0 }
  else if CERTIFICATE_RSP_MAX_SZ < inp.rsp_data_sz then { ret := -14, p := p0 }
  else if (e.allocOk.getD 0 true) = false then { ret := -12, p := p0 }
  else
    let allocs := [MemEvent.alloc 0 CERTIFICATE_RSP_MAX_SZ]
    let closes := fcs_close_services none (some 0)
    let s1 := fcs_request_service fcs_attestation_callback p0 (e.svc.getD 0 SvcOutcome.timeout)
    if s1.1 = 0 ∧ s1.2.1.status = 0 then
      if CERTIFICATE_RSP_MAX_SZ < s1.2.1.size then
        { ret := -14, dataStatus := inp.status, svcCount := 1, p := s1.2.1,
          mem := allocs ++ closes }
      else if e.ctuOk = false then
        { ret := -14, dataStatus := s1.2.1.status, copied := true, svcCount := 1,
          p := s1.2.1, mem := allocs ++ closes ++ closes }
      else
        { ret := s1.1, dataStatus := s1.2.1.status, copied := true, svcCount := 1,
          p := s1.2.1, mem := allocs ++ closes }
    else
      if e.ctuOk = false then
        { ret := -14, dataStatus := s1.2.1.status, svcCount := 1, p := s1.2.1,
          mem := allocs ++ closes ++ closes }
      else
        { ret := s1.1, dataStatus := s1.2.1.status, svcCount := 1, p := s1.2.1,
          mem := allocs ++ closes }

/-- INTEL_FCS_DEV_ATTESTATION_CERTIFICATE_RELOAD handler (lines 976-999). -/
def fcs_ioctl_certificate_reload (p0 : PrivState) (inp : IoctlIn) (e : Env) : R :=
  if e.cfuOk = false then { ret := -14, p := p0 }
  else
    let s1 := fcs_request_service fcs_vab_callback p0 (e.svc.getD 0 SvcOutcome.timeout)
    if s1.1 ≠ 0 then { ret := -14, svcCount := 1, p := s1.2.1 }
    else if e.ctuOk = false then
      { ret := -14, dataStatus := s1.2.1.status, svcCount := 1, p := s1.2.1 }
    else
      { ret := 0, dataStatus := s1.2.1.status, svcCount := 1, p := s1.2.1 }

/-- INTEL_FCS_DEV_GET_ROM_PATCH_SHA384 handler (lines 1001-1056). On an
oversize reported digest the buffer is freed and `ret` set to `-EFAULT`
without returning, so execution continues into the output copy and the
trailing `fcs_close_services` frees the buffer again. -/
def fcs_ioctl_rom_patch (p0 : PrivState) (inp : IoctlIn) (e : Env) : R :=
  if e.cfuOk = false then { ret := -14, p := p0 }
  else if (e.allocOk.getD 0 true) = false then { ret := -12, p := p0 }
  else
    let a0 := [MemEvent.alloc 0 SHA384_SIZE]
    let s1 := fcs_request_service fcs_data_callback p0 (e.svc.getD 0 SvcOutcome.timeout)
    if s1.1 = 0 ∧ s1.2.1.status = 0 then
      if s1.2.1.kbuf = none then
        { ret := -14, dataStatus := inp.status, svcCount := 1, p := s1.2.1,
          mem := a0 ++ fcs_close_services (some 0) none }
      else if SHA384_SIZE < s1.2.1.size then
        if e.ctuOk = false then
          { ret := -14, dataStatus := s1.2.1.status, svcCount := 1, p := s1.2.1,
            mem := a0 ++ fcs_close_services (some 0) none
                   ++ fcs_close_services (some 0) none ++ fcs_close_services (some 0) none }
        else
          { ret := -14, dataStatus := s1.2.1.status, svcCount := 1, p := s1.2.1,
            mem := a0 ++ fcs_close_services (some 0) none ++ fcs_close_services (some 0) none }
      else if e.ctuOk = false then
        { ret := -14, dataStatus := s1.2.1.status, svcCount := 1, p := s1.2.1,
          mem := a0 ++ fcs_close_services (some 0) none ++ fcs_close_services (some 0) none }
      else
        { ret := s1.1, dataStatus := s1.2.1.status, svcCount := 1, p := s1.2.1,
          mem := a0 ++ fcs_close_services (some 0) none }
    else
      if e.ctuOk = false then
        { ret := -14, dataStatus := s1.2.1.status, svcCount := 1, p := s1.2.1,
          mem := a0 ++ fcs_close_services (some 0) none ++ fcs_close_services (some 0) none }
      else
        { ret := s1.1, dataStatus := s1.2.1.status, svcCount := 1, p := s1.2.1,
          mem := a0 ++ fcs_close_services (some 0) none }

/-- The command codes with a `case` label in the `fcs_ioctl` switch
(lines 220-1057), in source order. -/
def supportedCmds : List Nat :=
  [INTEL_FCS_DEV_VALIDATION_REQUEST,
   INTEL_FCS_DEV_SEND_CERTIFICATE,
   INTEL_FCS_DEV_COUNTER_SET_PREAUTHORIZED,
   INTEL_FCS_DEV_RANDOM_NUMBER_GEN,
   INTEL_FCS_DEV_GET_PROVISION_DATA,
   INTEL_FCS_DEV_DATA_ENCRYPTION,
   INTEL_FCS_DEV_DATA_DECRYPTION,
   INTEL_FCS_DEV_PSGSIGMA_TEARDOWN,
   INTEL_FCS_DEV_CHIP_ID,
   INTEL_FCS_DEV_ATTESTATION_SUBKEY,
   INTEL_FCS_DEV_ATTESTATION_MEASUREMENT,
   INTEL_FCS_DEV_ATTESTATION_GET_CERTIFICATE,
   INTEL_FCS_DEV_ATTESTATION_CERTIFICATE_RELOAD,
   INTEL_FCS_DEV_GET_ROM_PATCH_SHA384]

/-- `fcs_ioctl` (lines 191-1064): the two `devm_kzalloc` calls, then the
command switch; an unrecognized command only logs a warning and falls
out of the switch with `ret` still 0. -/
def fcs_ioctl (cmd : Nat) (p0 : PrivState) (inp : IoctlIn) (e : Env) : R :=
  if e.dataAllocOk = false then { ret := -12, p := p0 }
  else if e.msgAllocOk = false then { ret := -12, p := p0 }
  else if cmd = INTEL_FCS_DEV_VALIDATION_REQUEST then fcs_ioctl_validation p0 inp e
  else if cmd = INTEL_FCS_DEV_SEND_CERTIFICATE then fcs_ioctl_send_certificate p0 inp e
  else if cmd = INTEL_FCS_DEV_COUNTER_SET_PREAUTHORIZED then fcs_ioctl_counter_set p0 inp e
  else if cmd = INTEL_FCS_DEV_RANDOM_NUMBER_GEN then fcs_ioctl_random_number p0 inp e
  else if cmd = INTEL_FCS_DEV_GET_PROVISION_DATA then fcs_ioctl_get_provision p0 inp e
  else if cmd = INTEL_FCS_DEV_DATA_ENCRYPTION then fcs_ioctl_encryption p0 inp e
  else if cmd = INTEL_FCS_DEV_DATA_DECRYPTION then fcs_ioctl_decryption p0 inp e
  else if cmd = INTEL_FCS_DEV_PSGSIGMA_TEARDOWN then fcs_ioctl_teardown p0 inp e
  else if cmd = INTEL_FCS_DEV_CHIP_ID then fcs_ioctl_chip_id p0 inp e
  else if cmd = INTEL_FCS_DEV_ATTESTATION_SUBKEY then fcs_ioctl_subkey p0 inp e
  else if cmd = INTEL_FCS_DEV_ATTESTATION_MEASUREMENT then fcs_ioctl_measurement p0 inp e
  else if cmd = INTEL_FCS_DEV_ATTESTATION_GET_CERTIFICATE then
    fcs_ioctl_get_certificate p0 inp e
  else if cmd = INTEL_FCS_DEV_ATTESTATION_CERTIFICATE_RELOAD then
    fcs_ioctl_certificate_reload p0 inp e
  else if cmd = INTEL_FCS_DEV_GET_ROM_PATCH_SHA384 then fcs_ioctl_rom_patch p0 inp e
  else { ret := 0, p := p0 }

/-- The private state established by `fcs_driver_probe` (lines 1094-1105). -/
def probe_priv : PrivState :=
  { status := INVALID_STATUS, kbuf := none, size := 0,
    cid_low := INVALID_CID, cid_high := INVALID_CID }

/-! ### Concrete fixtures used by the theorems -/

/-- A notification with `OK` status for the status-only (vab) phase. -/
def cbVabOK : CbData :=
  { status := BIT SVC_STATUS_OK, kaddr1 := some 0, kaddr2 := some [0], kaddr3 := some 0 }

/-- A successful data-shape notification: 32 bytes of payload. -/
def cbDataOK : CbData :=
  { status := BIT SVC_STATUS_OK, kaddr1 := some 0,
    kaddr2 := some [32, 1, 2, 3, 4, 5, 6, 7], kaddr3 := some 32 }

/-- An `ERROR` notification with mailbox error word 171. -/
def cbDataErr : CbData :=
  { status := BIT SVC_STATUS_ERROR, kaddr1 := some 171, kaddr2 := some [99],
    kaddr3 := some 4 }

/-- A successful attestation notification reporting response size `n`. -/
def cbAttOK (n : Nat) : CbData :=
  { status := BIT SVC_STATUS_OK, kaddr1 := some 0, kaddr2 := some [1, 2],
    kaddr3 := some n }

/-- A `BUSY` notification. -/
def cbBusy : CbData :=
  { status := BIT SVC_STATUS_BUSY, kaddr1 := some 3, kaddr2 := some [4], kaddr3 := some 5 }

/-- A request struct whose sizes satisfy every static bound. -/
def inp0 : IoctlIn :=
  { status := 7, src_size := 200, dst_size := 200, size := 16, c_size := 8,
    cmd_data_sz := 10, rsp_data_sz := 10, sid := 1, c_request := 1 }

/-- `inp0` with the given source/destination sizes. -/
def inpSz (s d : Nat) : IoctlIn := { inp0 with src_size := s, dst_size := d }

/-- `inp0` with the given attestation command/response sizes. -/
def inpCR (c r : Nat) : IoctlIn := { inp0 with cmd_data_sz := c, rsp_data_sz := r }

/-- The environment in which every external step succeeds and both
channel interactions complete with success status. -/
def envAllGood : Env :=
  { dataAllocOk := true, msgAllocOk := true, cfuOk := true, fwOk := true,
    fwSize := 100, allocOk := [], copyInOk := true,
    svc := [SvcOutcome.completed cbVabOK, SvcOutcome.completed cbDataOK],
    copyOutOk := true, ctuOk := true }

/-- `envAllGood` with the given channel interaction outcomes. -/
def envTP (o1 o2 : SvcOutcome) : Env := { envAllGood with svc := [o1, o2] }

/-- `envAllGood` except that the final `copy_to_user` fails. -/
def envCtuFail : Env := { envAllGood with ctuOk := false }

/-- `envAllGood` except that the second shared-buffer allocation fails. -/
def envDbufFail : Env := { envAllGood with allocOk := [true, false] }

/-- `envAllGood` with a single attestation notification of size `n`. -/
def envAttSize (n : Nat) : Env :=
  { envAllGood with svc := [SvcOutcome.completed (cbAttOK n)] }

/-- Phase-one two-phase submission: the vab callback under the request
timeout, starting from the probe state. -/
def tpPhase1 (o1 : SvcOutcome) : Int × PrivState × List LockEv :=
  fcs_request_service fcs_vab_callback probe_priv o1

/-- Phase one returned 0 and stored success status. -/
def tpPhase1ok (o1 : SvcOutcome) : Prop :=
  (tpPhase1 o1).1 = 0 ∧ (tpPhase1 o1).2.1.status = 0

/-- The poll phase: the data callback running after phase one. -/
def tpPhase2 (o1 o2 : SvcOutcome) : Int × PrivState × List LockEv :=
  fcs_request_service fcs_data_callback (tpPhase1 o1).2.1 o2

/-- The poll phase returned 0 and stored success status. -/
def tpPhase2ok (o1 o2 : SvcOutcome) : Prop :=
  (tpPhase2 o1 o2).1 = 0 ∧ (tpPhase2 o1 o2).2.1.status = 0

/-- A poll-phase outcome whose notification carries a non-NULL result
pointer (rules out the NULL-`kbuf` early-`EFAULT` path, which does not
report a status at all). -/
def pollSafe : SvcOutcome → Bool
  | SvcOutcome.completed d => d.kaddr2.isSome
  | _ => true

/-- A request that was rejected before touching the buffer pool or the
channel: no shared-buffer events, no channel call, `-EFAULT` returned. -/
def rejectedNoAlloc (r : R) : Prop :=
  r.mem = [] ∧ r.svcCount = 0 ∧ r.ret = -14

/-! ### Theorems for the specification claims -/

/-- C1: the claim that every shared buffer allocated during an ioctl
request is freed exactly once on every exit path fails on the code: when
the final `copy_to_user` of a random-number request fails, `s_buf` is
freed both in the error branch and by the fall-through
`fcs_close_services`, a double free; and when the subkey
response-buffer allocation fails, the already-allocated command buffer
is never freed, a leak. -/
theorem fcs_ioctl_alloc_free_imbalance :
    (fcs_ioctl INTEL_FCS_DEV_RANDOM_NUMBER_GEN probe_priv inp0 envCtuFail).mem
      = [MemEvent.alloc 0 32, MemEvent.free 0, MemEvent.free 0] ∧
    (fcs_ioctl INTEL_FCS_DEV_ATTESTATION_SUBKEY probe_priv inp0 envDbufFail).mem
      = [MemEvent.alloc 0 4096] := by
  exact ⟨rfl, rfl⟩

/-- C2: the claim that `fcs_request_service` releases the per-channel
lock on every exit path fails on the code: when `stratix10_svc_send`
rejects the message the function returns `-EINVAL` before reaching
`mutex_unlock`, so the lock trace ends with the mutex still held; the
timeout and completion paths do unlock. -/
theorem fcs_request_service_send_reject_keeps_lock :
    (fcs_request_service fcs_vab_callback probe_priv SvcOutcome.rejected).2.2
      = [LockEv.lock] ∧
    (fcs_request_service fcs_vab_callback probe_priv SvcOutcome.rejected).1 = -22 ∧
    (fcs_request_service fcs_vab_callback probe_priv SvcOutcome.timeout).2.2
      = [LockEv.lock, LockEv.unlock] ∧
    (fcs_request_service fcs_vab_callback probe_priv (SvcOutcome.completed cbVabOK)).2.2
      = [LockEv.lock, LockEv.unlock] := by
  exact ⟨rfl, rfl, rfl, rfl⟩

/-- C3 counterexample: for a certificate send whose first phase succeeds
and whose poll phase completes with a co-processor error (171), the
status field returned to the caller keeps its caller-supplied value 7
instead of the poll phase's status 171 (only the certificate status
word is populated), refuting the claim that the final status returned
to the caller is always the poll phase's status. -/
theorem send_certificate_poll_failure_status_mismatch :
    (fcs_ioctl INTEL_FCS_DEV_SEND_CERTIFICATE probe_priv inp0
       (envTP (SvcOutcome.completed cbVabOK) (SvcOutcome.completed cbDataErr))).svcCount = 2 ∧
    (fcs_ioctl INTEL_FCS_DEV_SEND_CERTIFICATE probe_priv inp0
       (envTP (SvcOutcome.completed cbVabOK) (SvcOutcome.completed cbDataErr))).p.status = 171 ∧
    (fcs_ioctl INTEL_FCS_DEV_SEND_CERTIFICATE probe_priv inp0
       (envTP (SvcOutcome.completed cbVabOK) (SvcOutcome.completed cbDataErr))).dataStatus = 7 ∧
    (fcs_ioctl INTEL_FCS_DEV_SEND_CERTIFICATE probe_priv inp0
       (envTP (SvcOutcome.completed cbVabOK) (SvcOutcome.completed cbDataErr))).cStatus = some 99 := by
  exact ⟨rfl, rfl, rfl, rfl⟩

/-- C4 counterexample: a decryption request with source size 32760 -
above the claimed source maximum of 32712 - is not rejected: it
allocates buffers, performs both channel phases and returns 0; and a
decryption request with source size 72 - the claimed source minimum -
is rejected before any allocation. The decryption source bound actually
enforced is the 120..32760 range. -/
theorem decryption_source_bound_mismatch :
    (fcs_ioctl INTEL_FCS_DEV_DATA_DECRYPTION probe_priv (inpSz 32760 100) envAllGood).ret = 0 ∧
    (fcs_ioctl INTEL_FCS_DEV_DATA_DECRYPTION probe_priv (inpSz 32760 100) envAllGood).svcCount = 2 ∧
    (fcs_ioctl INTEL_FCS_DEV_DATA_DECRYPTION probe_priv (inpSz 32760 100) envAllGood).mem ≠ [] ∧
    rejectedNoAlloc (fcs_ioctl INTEL_FCS_DEV_DATA_DECRYPTION probe_priv (inpSz 72 100) envAllGood) := by
  refine ⟨rfl, rfl, by decide, rfl, rfl, rfl⟩

/-- C5 counterexample: a decryption request with source size 71 is
rejected before any allocation and without touching the channel, but
with return code `-EFAULT` (-14), not the `-EINVAL` (-22) code that the
specification's `InvalidParameter` denotes elsewhere. -/
theorem decryption_size71_efault_not_einval :
    rejectedNoAlloc (fcs_ioctl INTEL_FCS_DEV_DATA_DECRYPTION probe_priv (inpSz 71 100) envAllGood) ∧
    (fcs_ioctl INTEL_FCS_DEV_DATA_DECRYPTION probe_priv (inpSz 71 100) envAllGood).ret ≠ -22 := by
  refine ⟨⟨rfl, rfl, rfl⟩, by decide⟩

/-- C6 counterexample: an `OK` notification handled by the attestation
callback stores completion status 0, not the notification's status
value `BIT(SVC_STATUS_OK)` = 1, refuting the claim that every
notification's status is passed through verbatim. -/
theorem attestation_ok_status_not_verbatim :
    (fcs_attestation_callback probe_priv (cbAttOK 12)).status = 0 ∧
    (cbAttOK 12).status = 1 ∧
    (fcs_attestation_callback probe_priv (cbAttOK 12)).status ≠ (cbAttOK 12).status := by
  refine ⟨rfl, rfl, by decide⟩

/-- C10 counterexample: the `fcs_ioctl` switch has fourteen supported
command cases, not thirteen as the claim counts. -/
theorem supported_command_count_fourteen :
    supportedCmds.length = 14 ∧ supportedCmds.length ≠ 13 := by
  exact ⟨rfl, by decide⟩

/-- C6 (amended): the attestation callback stores the notification
status verbatim only for statuses other than `OK` and `ERROR`; an `OK`
status is normalized to 0 (populating the result pointer and length)
and an `ERROR` status is replaced by the mailbox error word. -/
theorem attestation_callback_status_handling (p : PrivState) (d : CbData) :
    (d.status = BIT SVC_STATUS_OK →
       (fcs_attestation_callback p d).status = 0 ∧
       (fcs_attestation_callback p d).kbuf = d.kaddr2 ∧
       (fcs_attestation_callback p d).size = derefOr0 d.kaddr3) ∧
    (d.status = BIT SVC_STATUS_ERROR →
       (fcs_attestation_callback p d).status = derefOr0 d.kaddr1) ∧
    (d.status ≠ BIT SVC_STATUS_OK → d.status ≠ BIT SVC_STATUS_ERROR →
       (fcs_attestation_callback p d).status = d.status ∧
       (fcs_attestation_callback p d).kbuf = p.kbuf ∧
       (fcs_attestation_callback p d).size = p.size) := by
  unfold fcs_attestation_callback
  refine ⟨fun h => ?_, fun h => ?_, fun h1 h2 => ?_⟩ <;>
    simp_all [BIT, SVC_STATUS_OK, SVC_STATUS_ERROR]

/-- C6 witness: a `BUSY` notification is stored verbatim. -/
theorem attestation_callback_status_handling_witness :
    (fcs_attestation_callback probe_priv cbBusy).status = cbBusy.status ∧
    (fcs_attestation_callback probe_priv cbBusy).kbuf = probe_priv.kbuf ∧
    (fcs_attestation_callback probe_priv cbBusy).size = probe_priv.size :=
  (attestation_callback_status_handling probe_priv cbBusy).2.2 (by decide) (by decide)

/-- C7: the data callback stores success (0) with the result pointer and
length taken from the notification's second and third words on `OK` or
`COMPLETED`; on `ERROR` it stores the co-processor error code from the
first auxiliary word and keeps the notification's partial result
pointer/length; any other status is stored as `InvalidParameter`
(`-EINVAL` as a 32-bit pattern) with a NULL pointer and zero length. -/
theorem data_callback_shape (p : PrivState) (d : CbData) :
    ((d.status = BIT SVC_STATUS_OK ∨ d.status = BIT SVC_STATUS_COMPLETED) →
       (fcs_data_callback p d).status = 0 ∧
       (fcs_data_callback p d).kbuf = d.kaddr2 ∧
       ∀ v, d.kaddr3 = some v → (fcs_data_callback p d).size = v) ∧
    (d.status = BIT SVC_STATUS_ERROR →
       (fcs_data_callback p d).status = derefOr0 d.kaddr1 ∧
       (fcs_data_callback p d).kbuf = d.kaddr2 ∧
       (fcs_data_callback p d).size = derefOr0 d.kaddr3) ∧
    (d.status ≠ BIT SVC_STATUS_OK → d.status ≠ BIT SVC_STATUS_COMPLETED →
       d.status ≠ BIT SVC_STATUS_ERROR →
       (fcs_data_callback p d).status = negu32 EINVAL ∧
       (fcs_data_callback p d).kbuf = none ∧
       (fcs_data_callback p d).size = 0) := by
  unfold fcs_data_callback
  refine ⟨fun h => ?_, fun h => ?_, fun h1 h2 h3 => ?_⟩
  · rcases h with h | h <;>
      simp_all [BIT, SVC_STATUS_OK, SVC_STATUS_COMPLETED, SVC_STATUS_ERROR, derefOr0]
  · simp_all [BIT, SVC_STATUS_OK, SVC_STATUS_COMPLETED, SVC_STATUS_ERROR, derefOr0]
  · simp_all [BIT, SVC_STATUS_OK, SVC_STATUS_COMPLETED, SVC_STATUS_ERROR]

/-- C7 witness: a concrete successful data notification stores status 0
and the 32-byte length from the third word. -/
theorem data_callback_shape_witness :
    (fcs_data_callback probe_priv cbDataOK).status = 0 ∧
    (fcs_data_callback probe_priv cbDataOK).size = 32 :=
  ⟨((data_callback_shape probe_priv cbDataOK).1 (Or.inl rfl)).1,
   ((data_callback_shape probe_priv cbDataOK).1 (Or.inl rfl)).2.2 32 rfl⟩

/-- C9: for the three attestation operations, when the request completes
with success status but the co-processor reports a response size above
the operation's static maximum (820 / 4092 / 4096), the ioctl returns
`-EFAULT`, copies nothing into the caller's response area, and still
frees every allocated buffer exactly once. -/
theorem attestation_oversize_response_rejected (n : Nat) :
    (SUBKEY_RSP_MAX_SZ < n →
       (fcs_ioctl INTEL_FCS_DEV_ATTESTATION_SUBKEY probe_priv inp0 (envAttSize n)).ret = -14 ∧
       (fcs_ioctl INTEL_FCS_DEV_ATTESTATION_SUBKEY probe_priv inp0 (envAttSize n)).copied = false ∧
       (fcs_ioctl INTEL_FCS_DEV_ATTESTATION_SUBKEY probe_priv inp0 (envAttSize n)).mem
         = [MemEvent.alloc 0 4096, MemEvent.alloc 1 820, MemEvent.free 0, MemEvent.free 1]) ∧
    (MEASUREMENT_RSP_MAX_SZ < n →
       (fcs_ioctl INTEL_FCS_DEV_ATTESTATION_MEASUREMENT probe_priv inp0 (envAttSize n)).ret = -14 ∧
       (fcs_ioctl INTEL_FCS_DEV_ATTESTATION_MEASUREMENT probe_priv inp0 (envAttSize n)).copied = false ∧
       (fcs_ioctl INTEL_FCS_DEV_ATTESTATION_MEASUREMENT probe_priv inp0 (envAttSize n)).mem
         = [MemEvent.alloc 0 4096, MemEvent.alloc 1 4092, MemEvent.free 0, MemEvent.free 1]) ∧
    (CERTIFICATE_RSP_MAX_SZ < n →
       (fcs_ioctl INTEL_FCS_DEV_ATTESTATION_GET_CERTIFICATE probe_priv inp0 (envAttSize n)).ret = -14 ∧
       (fcs_ioctl INTEL_FCS_DEV_ATTESTATION_GET_CERTIFICATE probe_priv inp0 (envAttSize n)).copied = false ∧
       (fcs_ioctl INTEL_FCS_DEV_ATTESTATION_GET_CERTIFICATE probe_priv inp0 (envAttSize n)).mem
         = [MemEvent.alloc 0 4096, MemEvent.free 0]) := by
  refine ⟨fun h => ?_, fun h => ?_, fun h => ?_⟩ <;>
  · simp only [SUBKEY_RSP_MAX_SZ, MEASUREMENT_RSP_MAX_SZ, CERTIFICATE_RSP_MAX_SZ] at h
    simp [fcs_ioctl, fcs_ioctl_subkey, fcs_ioctl_measurement, fcs_ioctl_get_certificate,
      envAttSize, envAllGood, inp0, probe_priv, cbAttOK,
      fcs_request_service, fcs_attestation_callback, fcs_close_services,
      BIT, SVC_STATUS_OK, SVC_STATUS_ERROR,
      INTEL_FCS_DEV_VALIDATION_REQUEST, INTEL_FCS_DEV_SEND_CERTIFICATE,
      INTEL_FCS_DEV_COUNTER_SET_PREAUTHORIZED, INTEL_FCS_DEV_RANDOM_NUMBER_GEN,
      INTEL_FCS_DEV_GET_PROVISION_DATA, INTEL_FCS_DEV_DATA_ENCRYPTION,
      INTEL_FCS_DEV_DATA_DECRYPTION, INTEL_FCS_DEV_PSGSIGMA_TEARDOWN,
      INTEL_FCS_DEV_CHIP_ID, INTEL_FCS_DEV_ATTESTATION_SUBKEY,
      INTEL_FCS_DEV_ATTESTATION_MEASUREMENT, INTEL_FCS_DEV_ATTESTATION_GET_CERTIFICATE,
      INTEL_FCS_DEV_ATTESTATION_CERTIFICATE_RELOAD, INTEL_FCS_DEV_GET_ROM_PATCH_SHA384,
      SUBKEY_CMD_MAX_SZ, SUBKEY_RSP_MAX_SZ, MEASUREMENT_CMD_MAX_SZ, MEASUREMENT_RSP_MAX_SZ,
      CERTIFICATE_RSP_MAX_SZ, ATT_RESV_WORD_SZ, derefOr0, h]

/-- C9 witness: a reported size of 5000 exceeds all three maxima. -/
theorem attestation_oversize_response_rejected_witness :
    (fcs_ioctl INTEL_FCS_DEV_ATTESTATION_SUBKEY probe_priv inp0 (envAttSize 5000)).ret = -14 ∧
    (fcs_ioctl INTEL_FCS_DEV_ATTESTATION_SUBKEY probe_priv inp0 (envAttSize 5000)).copied = false ∧
    (fcs_ioctl INTEL_FCS_DEV_ATTESTATION_SUBKEY probe_priv inp0 (envAttSize 5000)).mem
      = [MemEvent.alloc 0 4096, MemEvent.alloc 1 820, MemEvent.free 0, MemEvent.free 1] :=
  (attestation_oversize_response_rejected 5000).1 (by decide)

/-- C10 (amended): an ioctl whose command code is not one of the
fourteen supported operations performs no shared-buffer allocation and
no channel interaction and returns 0. -/
theorem unsupported_command_noop (cmd : Nat) (p0 : PrivState) (inp : IoctlIn) (e : Env)
    (hd : e.dataAllocOk = true) (hm : e.msgAllocOk = true)
    (h : cmd ∉ supportedCmds) :
    fcs_ioctl cmd p0 inp e = { ret := 0, p := p0 } := by
  simp only [supportedCmds, List.mem_cons, List.not_mem_nil, or_false, not_or] at h
  obtain ⟨h1, h2, h3, h4, h5, h6, h7, h8, h9, h10, h11, h12, h13, h14⟩ := h
  simp [fcs_ioctl, hd, hm, h1, h2, h3, h4, h5, h6, h7, h8, h9, h10, h11, h12, h13, h14]

/-- C10 witness: command code 999 has no case label. -/
theorem unsupported_command_noop_witness :
    fcs_ioctl 999 probe_priv inp0 envAllGood = { ret := 0, p := probe_priv } :=
  unsupported_command_noop 999 probe_priv inp0 envAllGood rfl rfl (by decide)

/-- Reduction of the `fcs_ioctl` switch to the per-command handlers once
the two scratch `devm_kzalloc` calls succeed (shared helper). -/
theorem fcs_ioctl_eq_handler_aux (p0 : PrivState) (inp : IoctlIn) (e : Env)
    (hd : e.dataAllocOk = true) (hm : e.msgAllocOk = true) :
    fcs_ioctl INTEL_FCS_DEV_VALIDATION_REQUEST p0 inp e = fcs_ioctl_validation p0 inp e ∧
    fcs_ioctl INTEL_FCS_DEV_SEND_CERTIFICATE p0 inp e = fcs_ioctl_send_certificate p0 inp e ∧
    fcs_ioctl INTEL_FCS_DEV_DATA_ENCRYPTION p0 inp e = fcs_ioctl_encryption p0 inp e ∧
    fcs_ioctl INTEL_FCS_DEV_DATA_DECRYPTION p0 inp e = fcs_ioctl_decryption p0 inp e ∧
    fcs_ioctl INTEL_FCS_DEV_ATTESTATION_SUBKEY p0 inp e = fcs_ioctl_subkey p0 inp e ∧
    fcs_ioctl INTEL_FCS_DEV_ATTESTATION_MEASUREMENT p0 inp e = fcs_ioctl_measurement p0 inp e ∧
    fcs_ioctl INTEL_FCS_DEV_ATTESTATION_GET_CERTIFICATE p0 inp e
      = fcs_ioctl_get_certificate p0 inp e := by
  refine ⟨?_, ?_, ?_, ?_, ?_, ?_, ?_⟩ <;>
    simp [fcs_ioctl, hd, hm,
      INTEL_FCS_DEV_VALIDATION_REQUEST, INTEL_FCS_DEV_SEND_CERTIFICATE,
      INTEL_FCS_DEV_COUNTER_SET_PREAUTHORIZED, INTEL_FCS_DEV_RANDOM_NUMBER_GEN,
      INTEL_FCS_DEV_GET_PROVISION_DATA, INTEL_FCS_DEV_DATA_ENCRYPTION,
      INTEL_FCS_DEV_DATA_DECRYPTION, INTEL_FCS_DEV_PSGSIGMA_TEARDOWN,
      INTEL_FCS_DEV_CHIP_ID, INTEL_FCS_DEV_ATTESTATION_SUBKEY,
      INTEL_FCS_DEV_ATTESTATION_MEASUREMENT, INTEL_FCS_DEV_ATTESTATION_GET_CERTIFICATE,
      INTEL_FCS_DEV_ATTESTATION_CERTIFICATE_RELOAD, INTEL_FCS_DEV_GET_ROM_PATCH_SHA384]

/-- C5 (amended): for every operation with static size bounds, a
caller-supplied size outside the bound is rejected before any shared
buffer is allocated and before any channel interaction, with return
code `-EFAULT`; this holds whatever the rest of the environment does,
provided the two scratch allocations succeed. -/
theorem size_validation_before_allocation (p0 : PrivState) (inp : IoctlIn) (e : Env)
    (hd : e.dataAllocOk = true) (hm : e.msgAllocOk = true) :
    (inp.src_size < ENC_MIN_SZ ∨ ENC_MAX_SZ < inp.src_size ∨
        inp.dst_size < DEC_MIN_SZ ∨ DEC_MAX_SZ < inp.dst_size →
      rejectedNoAlloc (fcs_ioctl INTEL_FCS_DEV_DATA_DECRYPTION p0 inp e)) ∧
    (inp.src_size < DEC_MIN_SZ ∨ DEC_MAX_SZ < inp.src_size ∨
        inp.dst_size < ENC_MIN_SZ ∨ ENC_MAX_SZ < inp.dst_size →
      rejectedNoAlloc (fcs_ioctl INTEL_FCS_DEV_DATA_ENCRYPTION p0 inp e)) ∧
    (SUBKEY_CMD_MAX_SZ < inp.cmd_data_sz ∨ SUBKEY_RSP_MAX_SZ < inp.rsp_data_sz →
      rejectedNoAlloc (fcs_ioctl INTEL_FCS_DEV_ATTESTATION_SUBKEY p0 inp e)) ∧
    (MEASUREMENT_CMD_MAX_SZ < inp.cmd_data_sz ∨ MEASUREMENT_RSP_MAX_SZ < inp.rsp_data_sz →
      rejectedNoAlloc (fcs_ioctl INTEL_FCS_DEV_ATTESTATION_MEASUREMENT p0 inp e)) ∧
    (CERTIFICATE_RSP_MAX_SZ < inp.rsp_data_sz →
      rejectedNoAlloc (fcs_ioctl INTEL_FCS_DEV_ATTESTATION_GET_CERTIFICATE p0 inp e)) := by
  obtain ⟨-, -, hEnc, hDec, hSub, hMea, hCer⟩ := fcs_ioctl_eq_handler_aux p0 inp e hd hm
  refine ⟨fun h => ?_, fun h => ?_, fun h => ?_, fun h => ?_, fun h => ?_⟩
  · rw [hDec]; unfold fcs_ioctl_decryption
    by_cases hc : e.cfuOk = false
    · simp [hc, rejectedNoAlloc]
    · by_cases h1 : inp.src_size < ENC_MIN_SZ ∨ ENC_MAX_SZ < inp.src_size
      · simp [hc, h1, rejectedNoAlloc]
      · have h2 : inp.dst_size < DEC_MIN_SZ ∨ DEC_MAX_SZ < inp.dst_size := by
          rcases h with a | a | a | a
          · exact absurd (Or.inl a) h1
          · exact absurd (Or.inr a) h1
          · exact Or.inl a
          · exact Or.inr a
        simp [hc, h1, h2, rejectedNoAlloc]
  · rw [hEnc]; unfold fcs_ioctl_encryption
    by_cases hc : e.cfuOk = false
    · simp [hc, rejectedNoAlloc]
    · by_cases h1 : inp.src_size < DEC_MIN_SZ ∨ DEC_MAX_SZ < inp.src_size
      · simp [hc, h1, rejectedNoAlloc]
      · have h2 : inp.dst_size < ENC_MIN_SZ ∨ ENC_MAX_SZ < inp.dst_size := by
          rcases h with a | a | a | a
          · exact absurd (Or.inl a) h1
          · exact absurd (Or.inr a) h1
          · exact Or.inl a
          · exact Or.inr a
        simp [hc, h1, h2, rejectedNoAlloc]
  · rw [hSub]; unfold fcs_ioctl_subkey
    by_cases hc : e.cfuOk = false
    · simp [hc, rejectedNoAlloc]
    · by_cases h1 : SUBKEY_CMD_MAX_SZ < inp.cmd_data_sz
      · simp [hc, h1, rejectedNoAlloc]
      · have h2 : SUBKEY_RSP_MAX_SZ < inp.rsp_data_sz := by
          rcases h with a | a
          · exact absurd a h1
          · exact a
        simp [hc, h1, h2, rejectedNoAlloc]
  · rw [hMea]; unfold fcs_ioctl_measurement
    by_cases hc : e.cfuOk = false
    · simp [hc, rejectedNoAlloc]
    · by_cases h1 : MEASUREMENT_CMD_MAX_SZ < inp.cmd_data_sz
      · simp [hc, h1, rejectedNoAlloc]
      · have h2 : MEASUREMENT_RSP_MAX_SZ < inp.rsp_data_sz := by
          rcases h with a | a
          · exact absurd a h1
          · exact a
        simp [hc, h1, h2, rejectedNoAlloc]
  · rw [hCer]; unfold fcs_ioctl_get_certificate
    by_cases hc : e.cfuOk = false
    · simp [hc, rejectedNoAlloc]
    · simp [hc, h, rejectedNoAlloc]

/-- C5 witness: decryption with source size 71 is rejected with
`-EFAULT` before any allocation or channel interaction. -/
theorem size_validation_before_allocation_witness :
    rejectedNoAlloc (fcs_ioctl INTEL_FCS_DEV_DATA_DECRYPTION probe_priv (inpSz 71 100) envAllGood) :=
  (size_validation_before_allocation probe_priv (inpSz 71 100) envAllGood rfl rfl).1
    (by decide)

/-- C4 (amended): the enforced size bounds are: decryption source in
120..32760 and destination in 72..32712; encryption source in 72..32712
and destination in 120..32760; attestation sub-key command at most 4092
and response at most 820; measurement command and response at most
4092; certificate response at most 4096; out-of-bound sizes are rejected
with no allocation, in-bound sizes proceed to allocation; the
random-number output buffer is fixed at 32 bytes and the
ROM-patch-digest buffer at 48 bytes. -/
theorem catalog_size_bounds :
    (∀ s d : Nat,
       (fcs_ioctl INTEL_FCS_DEV_DATA_DECRYPTION probe_priv (inpSz s d) envAllGood).mem ≠ []
         ↔ (120 ≤ s ∧ s ≤ 32760 ∧ 72 ≤ d ∧ d ≤ 32712)) ∧
    (∀ s d : Nat,
       (fcs_ioctl INTEL_FCS_DEV_DATA_ENCRYPTION probe_priv (inpSz s d) envAllGood).mem ≠ []
         ↔ (72 ≤ s ∧ s ≤ 32712 ∧ 120 ≤ d ∧ d ≤ 32760)) ∧
    (∀ c r : Nat,
       (fcs_ioctl INTEL_FCS_DEV_ATTESTATION_SUBKEY probe_priv (inpCR c r) envAllGood).mem ≠ []
         ↔ (c ≤ 4092 ∧ r ≤ 820)) ∧
    (∀ c r : Nat,
       (fcs_ioctl INTEL_FCS_DEV_ATTESTATION_MEASUREMENT probe_priv (inpCR c r) envAllGood).mem ≠ []
         ↔ (c ≤ 4092 ∧ r ≤ 4092)) ∧
    (∀ r : Nat,
       (fcs_ioctl INTEL_FCS_DEV_ATTESTATION_GET_CERTIFICATE probe_priv (inpCR 10 r) envAllGood).mem ≠ []
         ↔ r ≤ 4096) ∧
    (fcs_ioctl INTEL_FCS_DEV_RANDOM_NUMBER_GEN probe_priv inp0 envAllGood).mem
      = [MemEvent.alloc 0 RANDOM_NUMBER_SIZE, MemEvent.free 0] ∧
    (fcs_ioctl INTEL_FCS_DEV_GET_ROM_PATCH_SHA384 probe_priv inp0 envAllGood).mem
      = [MemEvent.alloc 0 SHA384_SIZE, MemEvent.free 0] := by
  refine ⟨fun s d => ?_, fun s d => ?_, fun c r => ?_, fun c r => ?_, fun r => ?_,
    by decide, by decide⟩
  · rw [(fcs_ioctl_eq_handler_aux probe_priv (inpSz s d) envAllGood rfl rfl).2.2.2.1]
    unfold fcs_ioctl_decryption
    by_cases h1 : s < 120 ∨ 32760 < s
    · simp [inpSz, inp0, envAllGood, ENC_MIN_SZ, ENC_MAX_SZ, h1]; omega
    · by_cases h2 : d < 72 ∨ 32712 < d
      · simp [inpSz, inp0, envAllGood, ENC_MIN_SZ, ENC_MAX_SZ, DEC_MIN_SZ, DEC_MAX_SZ, h1, h2]; omega
      · simp [inpSz, inp0, envAllGood, ENC_MIN_SZ, ENC_MAX_SZ, DEC_MIN_SZ, DEC_MAX_SZ,
          PS_BUF_SIZE, h1, h2, fcs_request_service, fcs_vab_callback, fcs_data_callback,
          fcs_close_services, cbVabOK, cbDataOK, probe_priv, BIT, SVC_STATUS_OK,
          SVC_STATUS_COMPLETED, SVC_STATUS_ERROR, SVC_STATUS_BUSY,
          SVC_STATUS_INVALID_PARAM, derefOr0]; omega
  · rw [(fcs_ioctl_eq_handler_aux probe_priv (inpSz s d) envAllGood rfl rfl).2.2.1]
    unfold fcs_ioctl_encryption
    by_cases h1 : s < 72 ∨ 32712 < s
    · simp [inpSz, inp0, envAllGood, DEC_MIN_SZ, DEC_MAX_SZ, h1]; omega
    · by_cases h2 : d < 120 ∨ 32760 < d
      · simp [inpSz, inp0, envAllGood, ENC_MIN_SZ, ENC_MAX_SZ, DEC_MIN_SZ, DEC_MAX_SZ, h1, h2]; omega
      · simp [inpSz, inp0, envAllGood, ENC_MIN_SZ, ENC_MAX_SZ, DEC_MIN_SZ, DEC_MAX_SZ,
          PS_BUF_SIZE, h1, h2, fcs_request_service, fcs_vab_callback, fcs_data_callback,
          fcs_close_services, cbVabOK, cbDataOK, probe_priv, BIT, SVC_STATUS_OK,
          SVC_STATUS_COMPLETED, SVC_STATUS_ERROR, SVC_STATUS_BUSY,
          SVC_STATUS_INVALID_PARAM, derefOr0]; omega
  · rw [(fcs_ioctl_eq_handler_aux probe_priv (inpCR c r) envAllGood rfl rfl).2.2.2.2.1]
    unfold fcs_ioctl_subkey
    by_cases h1 : 4092 < c
    · simp [inpCR, inp0, envAllGood, SUBKEY_CMD_MAX_SZ, h1]
    · by_cases h2 : 820 < r
      · simp [inpCR, inp0, envAllGood, SUBKEY_CMD_MAX_SZ, SUBKEY_RSP_MAX_SZ, h1, h2]
      · simp [inpCR, inp0, envAllGood, SUBKEY_CMD_MAX_SZ, SUBKEY_RSP_MAX_SZ,
          ATT_RESV_WORD_SZ, h1, h2, fcs_request_service, fcs_attestation_callback,
          fcs_close_services, cbVabOK, probe_priv, BIT, SVC_STATUS_OK, SVC_STATUS_ERROR,
          derefOr0]; omega
  · rw [(fcs_ioctl_eq_handler_aux probe_priv (inpCR c r) envAllGood rfl rfl).2.2.2.2.2.1]
    unfold fcs_ioctl_measurement
    by_cases h1 : 4092 < c
    · simp [inpCR, inp0, envAllGood, MEASUREMENT_CMD_MAX_SZ, h1]
    · by_cases h2 : 4092 < r
      · simp [inpCR, inp0, envAllGood, MEASUREMENT_CMD_MAX_SZ, MEASUREMENT_RSP_MAX_SZ, h1, h2]
      · simp [inpCR, inp0, envAllGood, MEASUREMENT_CMD_MAX_SZ, MEASUREMENT_RSP_MAX_SZ,
          ATT_RESV_WORD_SZ, h1, h2, fcs_request_service, fcs_attestation_callback,
          fcs_close_services, cbVabOK, probe_priv, BIT, SVC_STATUS_OK, SVC_STATUS_ERROR,
          derefOr0]; omega
  · rw [(fcs_ioctl_eq_handler_aux probe_priv (inpCR 10 r) envAllGood rfl rfl).2.2.2.2.2.2]
    unfold fcs_ioctl_get_certificate
    by_cases h1 : 4096 < r
    · simp [inpCR, inp0, envAllGood, CERTIFICATE_RSP_MAX_SZ, h1]
    · simp [inpCR, inp0, envAllGood, CERTIFICATE_RSP_MAX_SZ, h1, fcs_request_service,
        fcs_attestation_callback, fcs_close_services, cbVabOK, probe_priv, BIT,
        SVC_STATUS_OK, SVC_STATUS_ERROR, derefOr0]; omega

/-- C4 witness: the boundary sizes 120 (decryption source minimum) and
72 (decryption destination minimum) are accepted and reach allocation. -/
theorem catalog_size_bounds_witness :
    (fcs_ioctl INTEL_FCS_DEV_DATA_DECRYPTION probe_priv (inpSz 120 72) envAllGood).mem ≠ [] :=
  (catalog_size_bounds.1 120 72).mpr (by decide)

/-- Helper: a poll phase that completed with success status and a
non-NULL notification pointer stores a non-NULL result pointer. -/
theorem tpPhase2_kbuf_aux (o1 o2 : SvcOutcome) (hs : pollSafe o2 = true)
    (h : tpPhase2ok o1 o2) : (tpPhase2 o1 o2).2.1.kbuf ≠ none := by
  cases o2 with
  | rejected => simp [tpPhase2ok, tpPhase2, fcs_request_service] at h
  | timeout => simp [tpPhase2ok, tpPhase2, fcs_request_service] at h
  | completed d =>
      obtain ⟨h1, h2⟩ := h
      simp only [tpPhase2, fcs_request_service] at h2 ⊢
      simp only [pollSafe, Option.isSome_iff_ne_none] at hs
      unfold fcs_data_callback at h2 ⊢
      split_ifs at h2 ⊢ with ha hb
      · simpa using hs
      · simpa using hs
      · exfalso
        simp [negu32, EINVAL] at h2

/-- C3 (amended): for each two-phase operation the poll command is
submitted if and only if the first phase returned 0 with success
status, and when the first phase fails the caller receives the first
phase's stored status directly; when the poll phase runs, bitstream
validation, encryption and decryption return the poll phase's stored
status, and certificate send does so only on poll success - on poll
failure it leaves the returned status field at its caller-supplied
value and instead reports the poll buffer's first word (or the
`INVALID_STATUS` sentinel) in the certificate status word. -/
theorem two_phase_poll_protocol (st0 : Nat) (o1 o2 : SvcOutcome)
    (hsafe : pollSafe o2 = true) :
    ((fcs_ioctl INTEL_FCS_DEV_VALIDATION_REQUEST probe_priv { inp0 with status := st0 }
        (envTP o1 o2)).svcCount = 2 ↔ tpPhase1ok o1) ∧
    ((fcs_ioctl INTEL_FCS_DEV_SEND_CERTIFICATE probe_priv { inp0 with status := st0 }
        (envTP o1 o2)).svcCount = 2 ↔ tpPhase1ok o1) ∧
    ((fcs_ioctl INTEL_FCS_DEV_DATA_ENCRYPTION probe_priv { inp0 with status := st0 }
        (envTP o1 o2)).svcCount = 2 ↔ tpPhase1ok o1) ∧
    ((fcs_ioctl INTEL_FCS_DEV_DATA_DECRYPTION probe_priv { inp0 with status := st0 }
        (envTP o1 o2)).svcCount = 2 ↔ tpPhase1ok o1) ∧
    (¬ tpPhase1ok o1 →
      (fcs_ioctl INTEL_FCS_DEV_VALIDATION_REQUEST probe_priv { inp0 with status := st0 }
          (envTP o1 o2)).dataStatus = (tpPhase1 o1).2.1.status ∧
      (fcs_ioctl INTEL_FCS_DEV_SEND_CERTIFICATE probe_priv { inp0 with status := st0 }
          (envTP o1 o2)).dataStatus = (tpPhase1 o1).2.1.status ∧
      (fcs_ioctl INTEL_FCS_DEV_DATA_ENCRYPTION probe_priv { inp0 with status := st0 }
          (envTP o1 o2)).dataStatus = (tpPhase1 o1).2.1.status ∧
      (fcs_ioctl INTEL_FCS_DEV_DATA_DECRYPTION probe_priv { inp0 with status := st0 }
          (envTP o1 o2)).dataStatus = (tpPhase1 o1).2.1.status) ∧
    (tpPhase1ok o1 →
      (fcs_ioctl INTEL_FCS_DEV_VALIDATION_REQUEST probe_priv { inp0 with status := st0 }
          (envTP o1 o2)).dataStatus = (tpPhase2 o1 o2).2.1.status ∧
      (fcs_ioctl INTEL_FCS_DEV_DATA_ENCRYPTION probe_priv { inp0 with status := st0 }
          (envTP o1 o2)).dataStatus = (tpPhase2 o1 o2).2.1.status ∧
      (fcs_ioctl INTEL_FCS_DEV_DATA_DECRYPTION probe_priv { inp0 with status := st0 }
          (envTP o1 o2)).dataStatus = (tpPhase2 o1 o2).2.1.status) ∧
    (tpPhase1ok o1 → tpPhase2ok o1 o2 →
      (fcs_ioctl INTEL_FCS_DEV_SEND_CERTIFICATE probe_priv { inp0 with status := st0 }
          (envTP o1 o2)).dataStatus = 0) ∧
    (tpPhase1ok o1 → ¬ tpPhase2ok o1 o2 →
      (fcs_ioctl INTEL_FCS_DEV_SEND_CERTIFICATE probe_priv { inp0 with status := st0 }
          (envTP o1 o2)).dataStatus = st0 ∧
      (fcs_ioctl INTEL_FCS_DEV_SEND_CERTIFICATE probe_priv { inp0 with status := st0 }
          (envTP o1 o2)).cStatus
        = some (match (tpPhase2 o1 o2).2.1.kbuf with
                | some l => l.headD 0
                | none => INVALID_STATUS)) := by
  obtain ⟨hVal, hCer, hEnc, hDec, -, -, -⟩ :=
    fcs_ioctl_eq_handler_aux probe_priv { inp0 with status := st0 } (envTP o1 o2) rfl rfl
  rw [hVal, hCer, hEnc, hDec]
  by_cases hp1 : tpPhase1ok o1
  · have hp1r := hp1
    simp only [tpPhase1ok, tpPhase1] at hp1r
    by_cases hp2 : tpPhase2ok o1 o2
    · have hkk := tpPhase2_kbuf_aux o1 o2 hsafe hp2
      have hp2r := hp2
      simp only [tpPhase2ok, tpPhase2, tpPhase1] at hp2r
      simp only [tpPhase2, tpPhase1] at hkk
      unfold fcs_ioctl_validation fcs_ioctl_send_certificate fcs_ioctl_encryption
        fcs_ioctl_decryption
      simp [envTP, envAllGood, inp0, DEC_MIN_SZ, DEC_MAX_SZ, ENC_MIN_SZ, ENC_MAX_SZ,
        PS_BUF_SIZE, CERT_TEST_WORD_SZ, tpPhase2, tpPhase1, hp1, hp2, hp1r.1, hp1r.2,
        hp2r.1, hp2r.2, hkk]
    · have hp2r := hp2
      simp only [tpPhase2ok, tpPhase2, tpPhase1] at hp2r
      unfold fcs_ioctl_validation fcs_ioctl_send_certificate fcs_ioctl_encryption
        fcs_ioctl_decryption
      simp [envTP, envAllGood, inp0, DEC_MIN_SZ, DEC_MAX_SZ, ENC_MIN_SZ, ENC_MAX_SZ,
        PS_BUF_SIZE, CERT_TEST_WORD_SZ, tpPhase2, tpPhase1, hp1, hp2, hp1r.1, hp1r.2, hp2r]
  · have hp1r := hp1
    simp only [tpPhase1ok, tpPhase1] at hp1r
    unfold fcs_ioctl_validation fcs_ioctl_send_certificate fcs_ioctl_encryption
      fcs_ioctl_decryption
    simp [envTP, envAllGood, inp0, DEC_MIN_SZ, DEC_MAX_SZ, ENC_MIN_SZ, ENC_MAX_SZ,
      PS_BUF_SIZE, CERT_TEST_WORD_SZ, tpPhase1, hp1, hp1r]

/-- C3 witness: with both phases completing successfully, the poll
phase is submitted (two channel calls). -/
theorem two_phase_poll_protocol_witness :
    (fcs_ioctl INTEL_FCS_DEV_VALIDATION_REQUEST probe_priv { inp0 with status := 7 }
        (envTP (SvcOutcome.completed cbVabOK) (SvcOutcome.completed cbDataOK))).svcCount = 2
      ↔ tpPhase1ok (SvcOutcome.completed cbVabOK) :=
  (two_phase_poll_protocol 7 (SvcOutcome.completed cbVabOK) (SvcOutcome.completed cbDataOK)
    (by decide)).1
